import Mathlib

/- Verification development for the Vim client/server messaging layer in
src/src/plugins/vim/gdkvim.py (classes VimHidden and VimWindow).  Python
strings are modelled as List Char, Python dicts keyed by strings as
association lists with overwriting insertion, and the foreign GTK/GDK
transport layer as explicit function parameters.  Python exceptions that can
escape the modelled code (KeyError, IndexError, ValueError) are modelled
with Except. -/

/-- The NUL character used as the field separator of the Vim wire format. -/
def nulChar : Char := Char.ofNat 0

/-- Core of Python s.split(sep) for a one-character separator: returns the
piece before the first separator and the list of remaining pieces. -/
def splitOnCharCore (c : Char) : List Char → List Char × List (List Char)
  | [] => ([], [])
  | x :: xs =>
    if x = c then ([], (splitOnCharCore c xs).1 :: (splitOnCharCore c xs).2)
    else (x :: (splitOnCharCore c xs).1, (splitOnCharCore c xs).2)

/-- Python s.split(sep) for a one-character separator: every occurrence
separates, empty pieces are kept, and the empty string yields one empty
piece. -/
def splitOnChar (c : Char) (l : List Char) : List (List Char) :=
  (splitOnCharCore c l).1 :: (splitOnCharCore c l).2

/-- Python s.startswith(pre). -/
def pyStartsWith : List Char → List Char → Bool
  | [], _ => true
  | _ :: _, [] => false
  | p :: ps, x :: xs => p = x && pyStartsWith ps xs

/-- Python s.count(c) for a single character. -/
def countChar (c : Char) : List Char → Nat
  | [] => 0
  | x :: xs => (if x = c then 1 else 0) + countChar c xs

/-- Python s.split(c, 1) when c occurs in s: the pair (before the first c,
after the first c). -/
def splitFirst (c : Char) : List Char → List Char × List Char
  | [] => ([], [])
  | x :: xs =>
    if x = c then ([], xs)
    else ((x :: (splitFirst c xs).1), (splitFirst c xs).2)

/-- Overwriting insertion into a Python dict modelled as an association
list: replaces the value at an existing key, otherwise appends. -/
def dictSet {β : Type} (d : List (List Char × β)) (k : List Char) (v : β) :
    List (List Char × β) :=
  match d with
  | [] => [(k, v)]
  | p :: rest => if p.1 = k then (k, v) :: rest else p :: dictSet rest k v

/-- Dict lookup for the association-list model of a Python dict. -/
def dictGet {β : Type} (d : List (List Char × β)) (k : List Char) : Option β :=
  match d with
  | [] => none
  | p :: rest => if p.1 = k then some p.2 else dictGet rest k

/-- One digit character, as produced by the %x and %s format codes for a
nonnegative integer: 0-9 then lowercase a-f. -/
def digitCharH (n : Nat) : Char :=
  if n < 10 then Char.ofNat (48 + n) else Char.ofNat (87 + n)

/-- Fuel-driven accumulator loop for rendering a Nat in hexadecimal; the
fuel passed by toHex always suffices since n / 16 decreases. -/
def toHexAux : Nat → Nat → List Char → List Char
  | 0, _, acc => acc
  | fuel + 1, n, acc =>
    if n = 0 then acc else toHexAux fuel (n / 16) (digitCharH (n % 16) :: acc)

/-- Python "%x" % n for a nonnegative integer n. -/
def toHex (n : Nat) : List Char := if n = 0 then ['0'] else toHexAux n n []

/-- Fuel-driven accumulator loop for rendering a Nat in decimal. -/
def toDecAux : Nat → Nat → List Char → List Char
  | 0, _, acc => acc
  | fuel + 1, n, acc =>
    if n = 0 then acc else toDecAux fuel (n / 10) (digitCharH (n % 10) :: acc)

/-- Python "%s" % n for a nonnegative integer n. -/
def toDec (n : Nat) : List Char := if n = 0 then ['0'] else toDecAux n n []

/- Character-class facts used to show the rendered source id and serial
contain neither the NUL separator nor a space. -/

theorem digitCharH_ok : ∀ m, m < 16 → digitCharH m ≠ nulChar ∧ digitCharH m ≠ ' ' := by
  decide

theorem toHexAux_mem {c : Char} : ∀ (fuel n : Nat) (acc : List Char),
    c ∈ toHexAux fuel n acc → c ∈ acc ∨ ∃ m, m < 16 ∧ c = digitCharH m
  | 0, _, _, h => Or.inl h
  | fuel + 1, n, acc, h => by
    simp only [toHexAux] at h
    split at h
    · exact Or.inl h
    · rcases toHexAux_mem fuel (n / 16) _ h with h' | h'
      · rcases List.mem_cons.mp h' with h'' | h''
        · exact Or.inr ⟨n % 16, Nat.mod_lt n (by decide), h''⟩
        · exact Or.inl h''
      · exact Or.inr h'

theorem toDecAux_mem {c : Char} : ∀ (fuel n : Nat) (acc : List Char),
    c ∈ toDecAux fuel n acc → c ∈ acc ∨ ∃ m, m < 16 ∧ c = digitCharH m
  | 0, _, _, h => Or.inl h
  | fuel + 1, n, acc, h => by
    simp only [toDecAux] at h
    split at h
    · exact Or.inl h
    · rcases toDecAux_mem fuel (n / 10) _ h with h' | h'
      · rcases List.mem_cons.mp h' with h'' | h''
        · refine Or.inr ⟨n % 10, ?_, h''⟩
          exact Nat.lt_trans (Nat.mod_lt n (by decide)) (by decide)
        · exact Or.inl h''
      · exact Or.inr h'

theorem toHex_chars (n : Nat) : ∀ c ∈ toHex n, c ≠ nulChar ∧ c ≠ ' ' := by
  intro c hc
  rw [toHex] at hc
  split at hc
  · have hc0 : c = '0' := by simpa using hc
    subst hc0
    exact ⟨by decide, by decide⟩
  · rcases toHexAux_mem n n [] hc with h' | ⟨m, hm, he⟩
    · exact absurd h' (List.not_mem_nil c)
    · subst he
      exact digitCharH_ok m hm

theorem toDec_chars (n : Nat) : ∀ c ∈ toDec n, c ≠ nulChar ∧ c ≠ ' ' := by
  intro c hc
  rw [toDec] at hc
  split at hc
  · have hc0 : c = '0' := by simpa using hc
    subst hc0
    exact ⟨by decide, by decide⟩
  · rcases toDecAux_mem n n [] hc with h' | ⟨m, hm, he⟩
    · exact absurd h' (List.not_mem_nil c)
    · subst he
      exact digitCharH_ok m hm

theorem toHex_not_nul (n : Nat) : nulChar ∉ toHex n :=
  fun h => (toHex_chars n _ h).1 rfl

theorem toHex_not_sp (n : Nat) : ' ' ∉ toHex n :=
  fun h => (toHex_chars n _ h).2 rfl

theorem toDec_not_nul (n : Nat) : nulChar ∉ toDec n :=
  fun h => (toDec_chars n _ h).1 rfl

theorem toDec_not_sp (n : Nat) : ' ' ∉ toDec n :=
  fun h => (toDec_chars n _ h).2 rfl

/- Splitting lemmas for splitOnChar. -/

theorem splitOnCharCore_not_mem {c : Char} {xs : List Char} (h : c ∉ xs) :
    splitOnCharCore c xs = (xs, []) := by
  induction xs with
  | nil => rfl
  | cons x xs ih =>
    have hx : ¬ x = c := fun he => h (by simp [he])
    have hxs : c ∉ xs := fun hm => h (List.mem_cons_of_mem x hm)
    simp [splitOnCharCore, hx, ih hxs]

theorem splitOnChar_not_mem {c : Char} {xs : List Char} (h : c ∉ xs) :
    splitOnChar c xs = [xs] := by
  simp [splitOnChar, splitOnCharCore_not_mem h]

theorem splitOnCharCore_append {c : Char} {xs : List Char} (ys : List Char)
    (h : c ∉ xs) :
    splitOnCharCore c (xs ++ c :: ys) = (xs, splitOnChar c ys) := by
  induction xs with
  | nil => simp [splitOnCharCore, splitOnChar]
  | cons x xs ih =>
    have hx : ¬ x = c := fun he => h (by simp [he])
    have hxs : c ∉ xs := fun hm => h (List.mem_cons_of_mem x hm)
    simp [splitOnCharCore, hx, ih hxs]

theorem splitOnChar_append {c : Char} {xs : List Char} (ys : List Char)
    (h : c ∉ xs) :
    splitOnChar c (xs ++ c :: ys) = xs :: splitOnChar c ys := by
  simp [splitOnChar, splitOnCharCore_append ys h]

theorem splitOnChar_nil (c : Char) : splitOnChar c [] = [[]] := rfl

/-- Joining a nonempty list of fields with a NUL separator; inverse shape of
splitOnChar nulChar. -/
def joinFields : List (List Char) → List Char
  | [] => []
  | [f] => f
  | f :: g :: fs => f ++ nulChar :: joinFields (g :: fs)

theorem joinFields_split : ∀ fs : List (List Char), fs ≠ [] →
    (∀ f ∈ fs, nulChar ∉ f) → splitOnChar nulChar (joinFields fs) = fs
  | [], h, _ => absurd rfl h
  | [f], _, h => by
    have hf : nulChar ∉ f := h f (by simp)
    simp [joinFields, splitOnChar_not_mem hf]
  | f :: g :: fs, _, h => by
    have hf : nulChar ∉ f := h f (by simp)
    have hrec := joinFields_split (g :: fs) (by simp)
      (fun x hx => h x (List.mem_cons_of_mem f hx))
    simp only [joinFields]
    rw [splitOnChar_append _ hf, hrec]

/- ===== The message codec and serial allocation (VimWindow.generate_message
and VimWindow.parse_message, gdkvim.py lines 436-468) ===== -/

/-- Serial update performed at the top of VimWindow.generate_message: the
counter is incremented whenever the cork string is truthy (nonempty), and
recycled to 1 once it exceeds 65530.  The cork is always the nonempty
string c or k, so every generated message increments the counter. -/
def gen_serial (cork : List Char) (serial : Nat) : Nat :=
  if cork ≠ [] then
    if serial + 1 > 65530 then 1 else serial + 1
  else serial

/-- VimWindow.generate_message: updates the serial counter and renders the
wire frame by the format string NUL cork NUL -n server NUL -s message NUL
-r sourceid-hex serial NUL.  Returns the new counter and the frame text. -/
def generate_message (server cork message : List Char) (sourceid serial : Nat) :
    Nat × List Char :=
  let s := gen_serial cork serial
  (s, [nulChar] ++ cork ++ [nulChar] ++ ['-', 'n', ' '] ++ server ++ [nulChar] ++
      ['-', 's', ' '] ++ message ++ [nulChar] ++ ['-', 'r', ' '] ++
      toHex sourceid ++ [' '] ++ toDec s ++ [nulChar])

/-- One step of the loop body of VimWindow.parse_message, for one
NUL-separated field: the field is split on every space; an empty first token
is skipped; a token starting with a dash stores the SECOND token (only)
under the key obtained by stripping the dash, and stores nothing when there
is no second token; any other first token is stored under the key t. -/
def parseField (acc : List (List Char × List Char)) (s : List Char) :
    List (List Char × List Char) :=
  match splitOnChar ' ' s with
  | [] => acc
  | t0 :: rest =>
    if t0.length = 0 then acc
    else if pyStartsWith ['-'] t0 then
      match rest with
      | [] => acc
      | t1 :: _ => dictSet acc (t0.drop 1) t1
    else dictSet acc ['t'] t0

/-- VimWindow.parse_message: split the message on NUL and fold the field
parser over the pieces, building the attribute dict. -/
def parse_message (message : List Char) : List (List Char × List Char) :=
  (splitOnChar nulChar message).foldl parseField []

/- ===== The dispatcher (VimWindow.cb_reply / cb_reply_async, gdkvim.py
lines 568-582) ===== -/

/-- Python exceptions that the modelled code can raise. -/
inductive PyExn : Type
  | keyError
  | indexError
  | valueError
deriving DecidableEq

/-- Observable effects of handling an inbound message: invoking a pending
callback with the raw reply, firing an application event (do_evt), or
logging a diagnostic (do_log).  The callback type is abstract. -/
inductive Effect (κ : Type) : Type
  | invoke (c : κ) (arg : List Char)
  | evt (name : List Char) (args : List (List Char))
  | log (data : List Char)
deriving DecidableEq

/-- The last field of the frame starting with -n, as extracted by the
list-comprehension-and-pop in the else branch of cb_reply; none models the
IndexError raised by pop on an empty list. -/
def lastNField (data : List Char) : Option (List Char) :=
  ((splitOnChar nulChar data).filter (fun t => pyStartsWith ['-', 'n'] t)).getLast?

/-- VimWindow.cb_reply_async: a payload containing a comma is split at the
first comma into an event name and arguments and fired as do_evt; a payload
without a comma is logged as a bad async reply. -/
def cb_reply_async {κ : Type} (data : List Char) : List (Effect κ) :=
  if countChar ',' data ≠ 0 then
    [Effect.evt (splitFirst ',' data).1 (splitOnChar ',' (splitFirst ',' data).2)]
  else [Effect.log data]

/-- VimWindow.cb_reply: parse the inbound message; on a reply (type tag r)
look up the callback under the serial string and invoke it with the raw
result, leaving the callback dict untouched; otherwise extract the last -n
field, strip the three-character prefix, and hand the payload to
cb_reply_async.  Missing dict keys and a missing -n field raise. -/
def cb_reply {κ : Type} (callbacks : List (List Char × κ)) (data : List Char) :
    Except PyExn (List (List Char × κ) × List (Effect κ)) :=
  let mdict := parse_message data
  match dictGet mdict ['t'] with
  | none => Except.error PyExn.keyError
  | some tv =>
    if tv = ['r'] then
      match dictGet mdict ['s'] with
      | none => Except.error PyExn.keyError
      | some sv =>
        match dictGet callbacks sv with
        | some c =>
          match dictGet mdict ['r'] with
          | none => Except.error PyExn.keyError
          | some rv => Except.ok (callbacks, [Effect.invoke c rv])
        | none => Except.ok (callbacks, [])
    else
      match lastNField data with
      | none => Except.error PyExn.indexError
      | some f => Except.ok (callbacks, cb_reply_async (f.drop 3))

/- ===== Discovery diffing (the gotservers closure inside
VimWindow.fetch_serverlist, gdkvim.py lines 252-268) ===== -/

/-- The gotservers callback of VimWindow.fetch_serverlist.  Input: the keys
of the working-directory cache, the stored oldservers value (none models
the Python None it is initialised to in do_init), and the freshly received
server list.  Output: the servers for which a fetch_cwd call is issued, the
new stored oldservers value, and whether feed_serverlist was called. -/
def gotservers (server_cwds : List (List Char)) (oldservers : Option (List (List Char)))
    (serverlist : List (List Char)) :
    List (List Char) × Option (List (List Char)) × Bool :=
  let fetches := serverlist.filter (fun s => decide (s ∉ server_cwds))
  if some serverlist ≠ oldservers then (fetches, some serverlist, true)
  else (fetches, oldservers, false)

/- ===== Liveness probing (VimHidden.is_alive, gdkvim.py lines 162-189) ===== -/

/-- Outcome of the os.waitpid(pid, os.WNOHANG) probe: an OSError, or the
returned (pid, status) pair. -/
inductive WaitResult : Type
  | oserror
  | ret (pid : Nat) (sts : Nat)
deriving DecidableEq

/-- VimHidden.is_alive: false when no process was spawned (pid None, or the
falsy pid 0); false on OSError from the probe, keeping the pid; false and
clearing the pid when the probe returns the pid itself (the child exited);
true otherwise.  Returns the new stored pid and the result. -/
def is_alive (pid : Option Nat) (probe : Nat → WaitResult) : Option Nat × Bool :=
  match pid with
  | none => (pid, false)
  | some p =>
    if p = 0 then (pid, false)
    else
      match probe p with
      | WaitResult.oserror => (pid, false)
      | WaitResult.ret rp _ => if rp = p then (none, false) else (pid, true)

/- ===== Root registry lookup and the send path
(VimWindow.get_rootwindow_serverlist, get_server_wid, send_message,
gdkvim.py lines 275-310, 358-378, 471-488) ===== -/

/-- Python str.split() whitespace predicate. -/
def isPyWs (c : Char) : Bool :=
  c = ' ' || c = Char.ofNat 9 || c = Char.ofNat 10 || c = Char.ofNat 11 ||
  c = Char.ofNat 12 || c = Char.ofNat 13

/-- Accumulator loop for Python str.split() with no argument: splits on
runs of whitespace and never yields empty tokens. -/
def pySplitWsCore (acc : List Char) : List Char → List (List Char)
  | [] => if acc = [] then [] else [acc.reverse]
  | c :: cs =>
    if isPyWs c then
      if acc = [] then pySplitWsCore [] cs else acc.reverse :: pySplitWsCore [] cs
    else pySplitWsCore (c :: acc) cs

/-- Python str.split() with no argument. -/
def pySplitWs (l : List Char) : List (List Char) := pySplitWsCore [] l

/-- Value of one hexadecimal digit character, or none. -/
def hexVal (c : Char) : Option Nat :=
  if '0' ≤ c ∧ c ≤ '9' then some (c.toNat - 48)
  else if 'a' ≤ c ∧ c ≤ 'f' then some (c.toNat - 87)
  else if 'A' ≤ c ∧ c ≤ 'F' then some (c.toNat - 55)
  else none

/-- Loop of int16. -/
def int16Core : List Char → Nat → Option Nat
  | [], acc => some acc
  | c :: cs, acc =>
    match hexVal c with
    | none => none
    | some v => int16Core cs (16 * acc + v)

/-- Python int(x, 16) on the token shapes the Vim root registry holds: a
nonempty run of hexadecimal digits; none models the ValueError raised on
anything else. -/
def int16 (l : List Char) : Option Nat :=
  if l = [] then none else int16Core l 0

/-- Loop of VimWindow.get_rootwindow_serverlist over the NUL-separated raw
server entries: blank entries are skipped; each other entry is split on
whitespace, its first token hex-parsed as the window id and its second
token taken as the server name; a missing token raises IndexError and a
bad hex token raises ValueError. -/
def parseRegistryTokens (servers : List (List Char × Nat)) :
    List (List Char) → Except PyExn (List (List Char × Nat))
  | [] => Except.ok servers
  | raw :: rest =>
    if raw = [] then parseRegistryTokens servers rest
    else
      match pySplitWs raw with
      | [] => Except.error PyExn.indexError
      | t0 :: ts =>
        match int16 t0 with
        | none => Except.error PyExn.valueError
        | some v =>
          match ts with
          | [] => Except.error PyExn.indexError
          | t1 :: _ => parseRegistryTokens (dictSet servers t1 v) rest

/-- VimWindow.get_rootwindow_serverlist: none models an absent (falsy)
VimRegistry property and yields the empty dict; otherwise the property
data is split on NUL and parsed entry by entry. -/
def get_rootwindow_serverlist (vimregistry : Option (List Char)) :
    Except PyExn (List (List Char × Nat)) :=
  match vimregistry with
  | none => Except.ok []
  | some data => parseRegistryTokens [] (splitOnChar nulChar data)

/-- VimWindow.get_server_wid: looks the server name up in the root registry
dict; a KeyError (absent name) is caught and gives None; the final
expression wid and long(wid) or None also maps a zero window id to None. -/
def get_server_wid (vimregistry : Option (List Char)) (servername : List Char) :
    Except PyExn (Option Nat) :=
  match get_rootwindow_serverlist vimregistry with
  | Except.error e => Except.error e
  | Except.ok servers =>
    match dictGet servers servername with
    | none => Except.ok none
    | some wid => Except.ok (if wid ≠ 0 then some wid else none)

/-- Result state of one VimWindow.send_message call: the serial counter,
the callback dict, and the property write performed on the target window
(none when nothing was sent). -/
structure SendResult (κ : Type) : Type where
  serial : Nat
  callbacks : List (List Char × κ)
  written : Option (Nat × List Char)
deriving DecidableEq

/-- VimWindow.send_message: resolve the target window id from the root
registry; when absent, do nothing.  Otherwise, when the foreign-window
probe (get_server_window plus the Vim property check, modelled by the
resolveVim oracle) succeeds, generate the frame, append it to the target's
Comm property, and, for an expression send with a truthy callback, record
the callback under the decimal string of the new serial. -/
def send_message {κ : Type} (vimregistry : Option (List Char)) (resolveVim : Nat → Bool)
    (xid : Nat) (serial : Nat) (callbacks : List (List Char × κ))
    (servername message : List Char) (asexpr : Bool) (callback : Option κ) :
    Except PyExn (SendResult κ) :=
  match get_server_wid vimregistry servername with
  | Except.error e => Except.error e
  | Except.ok none => Except.ok ⟨serial, callbacks, none⟩
  | Except.ok (some wid) =>
    let cork := if asexpr then ['c'] else ['k']
    if resolveVim wid then
      let r := generate_message servername cork message xid serial
      let newcbs :=
        if asexpr then
          match callback with
          | some cb => dictSet callbacks (toDec r.1) cb
          | none => callbacks
        else callbacks
      Except.ok ⟨r.1, newcbs, some (wid, r.2)⟩
    else Except.ok ⟨serial, callbacks, none⟩

/-- The serial embedded in the k-th synchronous (expression) frame sent
from a fresh VimWindow: do_init sets the counter to 1 and generate_message
pre-increments it before embedding, cork c being nonempty. -/
def nthSyncSerial (k : Nat) : Nat := (fun s => gen_serial ['c'] s)^[k] 1

/- ===== Evaluation lemmas for parseField on the field shapes produced by
generate_message ===== -/

theorem parseField_nil {acc : List (List Char × List Char)} :
    parseField acc [] = acc := rfl

theorem parseField_plain {acc : List (List Char × List Char)} {w : List Char}
    (h0 : w ≠ []) (hd : pyStartsWith ['-'] w = false) (hs : ' ' ∉ w) :
    parseField acc w = dictSet acc ['t'] w := by
  simp only [parseField]
  rw [splitOnChar_not_mem hs]
  simp [List.length_eq_zero, h0, hd]

theorem parseField_attr1 {acc : List (List Char × List Char)} (k : Char)
    (hk : ¬ k = ' ') (v : List Char) (hv : ' ' ∉ v) :
    parseField acc (['-', k] ++ ' ' :: v) = dictSet acc [k] v := by
  have hsp : (' ' : Char) ∉ ['-', k] := by
    intro h
    rcases List.mem_cons.mp h with h1 | h1
    · exact absurd h1 (by decide)
    · rcases List.mem_cons.mp h1 with h2 | h2
      · exact hk h2.symm
      · exact absurd h2 (List.not_mem_nil _)
  simp only [parseField]
  rw [splitOnChar_append v hsp, splitOnChar_not_mem hv]
  simp [pyStartsWith]

theorem parseField_attr2 {acc : List (List Char × List Char)} (k : Char)
    (hk : ¬ k = ' ') (v w : List Char) (hv : ' ' ∉ v) (hw : ' ' ∉ w) :
    parseField acc (['-', k] ++ ' ' :: (v ++ ' ' :: w)) = dictSet acc [k] v := by
  have hsp : (' ' : Char) ∉ ['-', k] := by
    intro h
    rcases List.mem_cons.mp h with h1 | h1
    · exact absurd h1 (by decide)
    · rcases List.mem_cons.mp h1 with h2 | h2
      · exact hk h2.symm
      · exact absurd h2 (List.not_mem_nil _)
  simp only [parseField]
  rw [splitOnChar_append _ hsp, splitOnChar_append w hv, splitOnChar_not_mem hw]
  simp [pyStartsWith]

/-- Full evaluation of parse_message on a frame produced by
generate_message whose cork, target and payload are space-free and
NUL-free: the decoded dict holds the cork under t, the target under n, the
payload under s, and ONLY the hexadecimal source id under r; the serial,
the second token of the -r field, is dropped by the decoder. -/
theorem parse_generate (server cork message : List Char) (sourceid serial : Nat)
    (hc0 : cork ≠ []) (hcd : pyStartsWith ['-'] cork = false)
    (hcn : nulChar ∉ cork) (hcs : ' ' ∉ cork)
    (hsn : nulChar ∉ server) (hss : ' ' ∉ server)
    (hmn : nulChar ∉ message) (hms : ' ' ∉ message) :
    parse_message (generate_message server cork message sourceid serial).2 =
      [(['t'], cork), (['n'], server), (['s'], message), (['r'], toHex sourceid)] := by
  have hmsg : (generate_message server cork message sourceid serial).2 =
      joinFields [[], cork, ['-', 'n'] ++ ' ' :: server, ['-', 's'] ++ ' ' :: message,
        ['-', 'r'] ++ ' ' :: (toHex sourceid ++ ' ' :: toDec (gen_serial cork serial)), []] := by
    simp [generate_message, joinFields]
  have hfields : splitOnChar nulChar (generate_message server cork message sourceid serial).2 =
      [[], cork, ['-', 'n'] ++ ' ' :: server, ['-', 's'] ++ ' ' :: message,
        ['-', 'r'] ++ ' ' :: (toHex sourceid ++ ' ' :: toDec (gen_serial cork serial)), []] := by
    rw [hmsg]
    apply joinFields_split _ (by simp)
    intro f hf
    rcases List.mem_cons.mp hf with h | hf
    · subst h; simp
    rcases List.mem_cons.mp hf with h | hf
    · subst h; exact hcn
    rcases List.mem_cons.mp hf with h | hf
    · subst h
      intro hm
      rcases List.mem_cons.mp hm with h1 | h1
      · exact absurd h1 (by decide)
      rcases List.mem_cons.mp h1 with h2 | h2
      · exact absurd h2 (by decide)
      rcases List.mem_cons.mp h2 with h3 | h3
      · exact absurd h3 (by decide)
      · exact hsn h3
    rcases List.mem_cons.mp hf with h | hf
    · subst h
      intro hm
      rcases List.mem_cons.mp hm with h1 | h1
      · exact absurd h1 (by decide)
      rcases List.mem_cons.mp h1 with h2 | h2
      · exact absurd h2 (by decide)
      rcases List.mem_cons.mp h2 with h3 | h3
      · exact absurd h3 (by decide)
      · exact hmn h3
    rcases List.mem_cons.mp hf with h | hf
    · subst h
      intro hm
      rcases List.mem_cons.mp hm with h1 | h1
      · exact absurd h1 (by decide)
      rcases List.mem_cons.mp h1 with h2 | h2
      · exact absurd h2 (by decide)
      rcases List.mem_cons.mp h2 with h3 | h3
      · exact absurd h3 (by decide)
      rcases List.mem_append.mp h3 with h4 | h4
      · exact toHex_not_nul sourceid h4
      rcases List.mem_cons.mp h4 with h5 | h5
      · exact absurd h5 (by decide)
      · exact toDec_not_nul _ h5
    rcases List.mem_cons.mp hf with h | hf
    · subst h; simp
    · exact absurd hf (List.not_mem_nil f)
  rw [parse_message, hfields]
  simp only [List.foldl_cons, List.foldl_nil]
  rw [parseField_nil, parseField_plain hc0 hcd hcs,
    parseField_attr1 'n' (by decide) server hss,
    parseField_attr1 's' (by decide) message hms,
    parseField_attr2 'r' (by decide) (toHex sourceid)
      (toDec (gen_serial cork serial)) (toHex_not_sp sourceid) (toDec_not_sp _),
    parseField_nil]
  rfl

/- ===== Claim C1 ===== -/

/-- C1 counterexample: encode-then-decode does NOT recover every field.
For the frame of a getcwd() call (source id 0x1f4, counter at 1, so the
embedded serial is 2, visible in the -r field as the text 1f4 2), the
decoded mapping is exactly {t: c, n: editor_A, s: getcwd(), r: 1f4}: the
serial 2 appears under no key, because parse_message stores only the first
space-separated token of an attribute.  A payload containing a space is
likewise truncated to its first token. -/
theorem C1_counterexample :
    (parse_message (generate_message ("editor_A".toList) ['c'] ("getcwd()".toList) 500 1).2 =
      [(['t'], ['c']), (['n'], "editor_A".toList), (['s'], "getcwd()".toList),
       (['r'], "1f4".toList)]) ∧
    (generate_message ("editor_A".toList) ['c'] ("getcwd()".toList) 500 1).1 = 2 ∧
    dictGet (parse_message
        (generate_message ("editor_A".toList) ['c'] ("cursor(3, 7)".toList) 500 1).2) ['s'] =
      some ("cursor(3,".toList) :=
  ⟨rfl, rfl, rfl⟩

/-- C1 amended: for every outbound frame whose cork is nonempty, does not
start with a dash, and is NUL-free and space-free, and whose target and
payload are NUL-free and space-free, decoding the frame produced by
generate_message recovers the cork under t, the target under n, the
payload under s, and the source id (as hexadecimal text) under r; the
serial is not recovered, being dropped as the second token of the -r
field. -/
theorem C1_roundtrip_amended (server cork message : List Char) (sourceid serial : Nat)
    (hc0 : cork ≠ []) (hcd : pyStartsWith ['-'] cork = false)
    (hcn : nulChar ∉ cork) (hcs : ' ' ∉ cork)
    (hsn : nulChar ∉ server) (hss : ' ' ∉ server)
    (hmn : nulChar ∉ message) (hms : ' ' ∉ message) :
    dictGet (parse_message (generate_message server cork message sourceid serial).2) ['t'] =
      some cork ∧
    dictGet (parse_message (generate_message server cork message sourceid serial).2) ['n'] =
      some server ∧
    dictGet (parse_message (generate_message server cork message sourceid serial).2) ['s'] =
      some message ∧
    dictGet (parse_message (generate_message server cork message sourceid serial).2) ['r'] =
      some (toHex sourceid) := by
  rw [parse_generate server cork message sourceid serial hc0 hcd hcn hcs hsn hss hmn hms]
  exact ⟨rfl, rfl, rfl, rfl⟩

/-- C1 witness: the amended round-trip law evaluated on the getcwd() call
to editor_A from source window 0x1f4 with the counter at 1. -/
theorem C1_roundtrip_amended_witness :
    dictGet (parse_message
        (generate_message ("editor_A".toList) ['c'] ("getcwd()".toList) 500 1).2) ['t'] =
      some ['c'] ∧
    dictGet (parse_message
        (generate_message ("editor_A".toList) ['c'] ("getcwd()".toList) 500 1).2) ['n'] =
      some ("editor_A".toList) ∧
    dictGet (parse_message
        (generate_message ("editor_A".toList) ['c'] ("getcwd()".toList) 500 1).2) ['s'] =
      some ("getcwd()".toList) ∧
    dictGet (parse_message
        (generate_message ("editor_A".toList) ['c'] ("getcwd()".toList) 500 1).2) ['r'] =
      some ("1f4".toList) :=
  C1_roundtrip_amended ("editor_A".toList) ['c'] ("getcwd()".toList) 500 1
    (by decide) (by decide) (by decide) (by decide) (by decide) (by decide)
    (by decide) (by decide)

/- ===== Claim C2 ===== -/

/-- C2 counterexample: from a fresh VimWindow (counter initialised to 1 in
do_init) the first synchronous frame embeds serial 2, not 1, and the
second embeds 3, not 2, because generate_message increments the counter
before embedding it. -/
theorem C2_counterexample :
    nthSyncSerial 1 = 2 ∧ ¬ nthSyncSerial 1 = 1 ∧
    nthSyncSerial 2 = 3 ∧ ¬ nthSyncSerial 2 = 2 :=
  ⟨rfl, by decide, rfl, by decide⟩

/-- C2 amended: the serials embedded in outgoing synchronous frames start
at 2 (the counter starts at 1 and is pre-incremented before use), so the
k-th call carries k + 1; they then increase strictly by 1 until the value
65530 is embedded, and the very next synchronous call embeds 1. -/
theorem C2_serials_amended :
    nthSyncSerial 1 = 2 ∧ nthSyncSerial 2 = 3 ∧
    (∀ s, 1 ≤ s → s < 65530 → gen_serial ['c'] s = s + 1) ∧
    gen_serial ['c'] 65530 = 1 := by
  refine ⟨rfl, rfl, ?_, by decide⟩
  intro s _ hlt
  simp only [gen_serial]
  rw [if_pos (by decide), if_neg (by omega)]

/-- C2 witness: the amended serial law evaluated at the counter values 1,
7 and 65530. -/
theorem C2_serials_amended_witness :
    nthSyncSerial 1 = 2 ∧ gen_serial ['c'] 7 = 8 ∧ gen_serial ['c'] 65530 = 1 :=
  ⟨C2_serials_amended.1, C2_serials_amended.2.2.1 7 (by decide) (by decide),
   C2_serials_amended.2.2.2⟩

/- ===== Claim C3 ===== -/

/-- C3: evaluation of the code at the failing input.  A fire-and-forget
key send (asexpr false, cork k) to a resolvable server with the counter at
5 increments the counter to 6 and embeds the fresh serial in the frame —
the guard if cork: in generate_message is true for the truthy string k —
while registering no callback. -/
theorem C3_code_eval :
    gen_serial ['k'] 5 = 6 ∧
    ((send_message (some ("1f4 editor_A".toList)) (fun _ => true) 7 5
        ([] : List (List Char × Nat)) ("editor_A".toList) ("ihello".toList)
        false none).map (fun r => (r.serial, r.callbacks))) = Except.ok (6, []) :=
  ⟨rfl, rfl⟩

/- ===== Claim C4 ===== -/

/-- A well-formed reply frame carrying serial 2 and result done. -/
def c4reply : List Char := "\x00r\x00-s 2\x00-r done\x00".toList

/-- A callback table holding one pending call, with serial string 2. -/
def c4table : List (List Char × Nat) := [("2".toList, 0)]

/-- C4 counterexample: resolving a reply does NOT remove the pending call.
cb_reply invokes the callback but returns the table unchanged, still
holding serial 2, so delivering a second reply with the same serial (the
identical call on the returned table) invokes the callback again instead
of being a no-op. -/
theorem C4_counterexample :
    cb_reply c4table c4reply = Except.ok (c4table, [Effect.invoke 0 ("done".toList)]) ∧
    cb_reply c4table c4reply ≠ Except.ok (c4table, []) := by
  refine ⟨rfl, ?_⟩
  intro h
  have h1 : cb_reply c4table c4reply =
      Except.ok (c4table, [Effect.invoke 0 ("done".toList)]) := rfl
  have h2 := h1.symm.trans h
  simp at h2

/-- C4 amended: on a reply frame whose serial has a matching pending call,
cb_reply invokes that callback with the raw result and leaves the callback
table unchanged (the entry is not removed, so every further reply carrying
the same serial invokes the callback again); a reply whose serial has no
matching entry invokes no callback and also leaves the table unchanged. -/
theorem C4_resolve_amended {κ : Type} (cbs : List (List Char × κ)) (data sv : List Char)
    (ht : dictGet (parse_message data) ['t'] = some ['r'])
    (hs : dictGet (parse_message data) ['s'] = some sv) :
    (∀ c rv, dictGet cbs sv = some c → dictGet (parse_message data) ['r'] = some rv →
      cb_reply cbs data = Except.ok (cbs, [Effect.invoke c rv])) ∧
    (dictGet cbs sv = none → cb_reply cbs data = Except.ok (cbs, [])) := by
  constructor
  · intro c rv hc hr
    simp [cb_reply, ht, hs, hc, hr]
  · intro hc
    simp [cb_reply, ht, hs, hc]

/-- C4 witness: the amended resolution law evaluated on the reply frame
with serial 2, once against a table holding that serial and once against
an empty table. -/
theorem C4_resolve_amended_witness :
    cb_reply c4table c4reply = Except.ok (c4table, [Effect.invoke 0 ("done".toList)]) ∧
    cb_reply ([] : List (List Char × Nat)) c4reply = Except.ok ([], []) :=
  ⟨(C4_resolve_amended c4table c4reply ("2".toList) rfl rfl).1 0 ("done".toList) rfl rfl,
   (C4_resolve_amended [] c4reply ("2".toList) rfl rfl).2 rfl⟩

/- ===== Claim C5 ===== -/

/-- C5 counterexample: two discovery cycles whose lists hold the identical
set of names but in different internal order.  The first cycle fires the
notification (old state none), and the second cycle fires AGAIN, because
fetch_serverlist compares with list inequality, which is order
sensitive. -/
theorem C5_counterexample :
    List.Perm ["editor_A".toList, "editor_B".toList]
      ["editor_B".toList, "editor_A".toList] ∧
    (gotservers [] none ["editor_A".toList, "editor_B".toList]).2.2 = true ∧
    (gotservers [] (gotservers [] none ["editor_A".toList, "editor_B".toList]).2.1
      ["editor_B".toList, "editor_A".toList]).2.2 = true :=
  ⟨List.Perm.swap _ _ _, rfl, rfl⟩

/-- C5 amended: the change test is equality of ordered lists, not sets.
Across two consecutive cycles the notification fires on the first iff the
received list differs from the stored previous value, and fires on the
second iff the second list differs from the first AS AN ORDERED SEQUENCE;
two cycles returning the same names in a different order fire twice. -/
theorem C5_diff_amended (cwds cwds2 : List (List Char)) (old : Option (List (List Char)))
    (l1 l2 : List (List Char)) :
    ((gotservers cwds old l1).2.2 = true ↔ some l1 ≠ old) ∧
    ((gotservers cwds2 (gotservers cwds old l1).2.1 l2).2.2 = true ↔ l2 ≠ l1) := by
  have hold : (gotservers cwds old l1).2.1 = some l1 := by
    by_cases hh : some l1 = old
    · simp [gotservers, hh]
    · simp [gotservers, hh]
  constructor
  · by_cases hh : some l1 = old
    · simp [gotservers, hh]
    · simp [gotservers, hh]
  · rw [hold]
    by_cases hll : l2 = l1
    · subst hll
      simp [gotservers]
    · have hso : some l2 ≠ some l1 := fun hc => hll (Option.some.inj hc)
      simp [gotservers, hso, hll]

/- ===== Claim C6 ===== -/

/-- C6 counterexample: a malformed inbound frame with no type tag (here a
lone -s attribute) makes cb_reply raise KeyError out of the handler, where
the claim requires it to be logged or dropped without a fault. -/
theorem C6_counterexample :
    cb_reply ([] : List (List Char × Nat)) ("-s 2".toList) =
      Except.error PyExn.keyError := rfl

/-- C6 amended: cb_reply absorbs only two of the malformed cases — a reply
with an unknown serial is silently dropped, and a comma-less notification
is logged and dropped.  Every other malformed shape escalates: a frame
with no type tag raises KeyError, a reply without a serial attribute
raises KeyError, a reply with a matching serial but no result attribute
raises KeyError, and a non-reply frame with no -n field raises
IndexError. -/
theorem C6_errors_amended {κ : Type} (cbs : List (List Char × κ)) (data : List Char) :
    (dictGet (parse_message data) ['t'] = none →
      cb_reply cbs data = Except.error PyExn.keyError) ∧
    (dictGet (parse_message data) ['t'] = some ['r'] →
      dictGet (parse_message data) ['s'] = none →
      cb_reply cbs data = Except.error PyExn.keyError) ∧
    (∀ sv c, dictGet (parse_message data) ['t'] = some ['r'] →
      dictGet (parse_message data) ['s'] = some sv →
      dictGet cbs sv = some c → dictGet (parse_message data) ['r'] = none →
      cb_reply cbs data = Except.error PyExn.keyError) ∧
    (∀ sv, dictGet (parse_message data) ['t'] = some ['r'] →
      dictGet (parse_message data) ['s'] = some sv →
      dictGet cbs sv = none → cb_reply cbs data = Except.ok (cbs, [])) ∧
    (∀ tv, dictGet (parse_message data) ['t'] = some tv → tv ≠ ['r'] →
      lastNField data = none → cb_reply cbs data = Except.error PyExn.indexError) ∧
    (∀ tv f, dictGet (parse_message data) ['t'] = some tv → tv ≠ ['r'] →
      lastNField data = some f → countChar ',' (f.drop 3) = 0 →
      cb_reply cbs data = Except.ok (cbs, [Effect.log (f.drop 3)])) := by
  refine ⟨?_, ?_, ?_, ?_, ?_, ?_⟩
  · intro ht
    simp [cb_reply, ht]
  · intro ht hs
    simp [cb_reply, ht, hs]
  · intro sv c ht hs hc hr
    simp [cb_reply, ht, hs, hc, hr]
  · intro sv ht hs hc
    simp [cb_reply, ht, hs, hc]
  · intro tv ht htv hf
    simp [cb_reply, ht, htv, hf]
  · intro tv f ht htv hf hcomma
    simp [cb_reply, ht, htv, hf, cb_reply_async, hcomma]

/-- C6 witness: the amended error taxonomy evaluated on a frame with no
type tag (KeyError) and on a reply with an unknown serial (silently
dropped). -/
theorem C6_errors_amended_witness :
    cb_reply ([] : List (List Char × Nat)) ("-s 2".toList) =
      Except.error PyExn.keyError ∧
    cb_reply ([] : List (List Char × Nat)) ("\x00r\x00-s 9\x00-r ok\x00".toList) =
      Except.ok ([], []) :=
  ⟨(C6_errors_amended [] ("-s 2".toList)).1 rfl,
   (C6_errors_amended [] ("\x00r\x00-s 9\x00-r ok\x00".toList)).2.2.2.1
     ("9".toList) rfl rfl rfl⟩

/- ===== Claim C10 ===== -/

/-- C10: the first completed discovery cycle always notifies the client,
whatever the filtered list is, including the empty list: oldservers is
initialised to None in do_init, and in gotservers every list compares
unequal to the sentinel None, so feed_serverlist is called and the list is
stored. -/
theorem C10_first_cycle (cwds : List (List Char)) (serverlist : List (List Char)) :
    (gotservers cwds none serverlist).2.2 = true ∧
    (gotservers cwds none serverlist).2.1 = some serverlist := by
  simp [gotservers]

/- ===== Claim C7 ===== -/

/-- C7: a send whose target name is absent from the root registry (or maps
to the falsy window id 0), or whose window id fails the foreign-window
resolution and Vim-property probe, is a silent no-op: send_message raises
nothing, writes nothing to the transport, leaves the serial counter
untouched and registers no callback — so no callback can ever fire for
the call. -/
theorem C7_silent_noop {κ : Type} (vimregistry : Option (List Char))
    (resolveVim : Nat → Bool) (xid serial : Nat) (cbs : List (List Char × κ))
    (servername message : List Char) (asexpr : Bool) (callback : Option κ)
    (h : get_server_wid vimregistry servername = Except.ok none ∨
      ∃ w, get_server_wid vimregistry servername = Except.ok (some w) ∧
        resolveVim w = false) :
    send_message vimregistry resolveVim xid serial cbs servername message asexpr callback
      = Except.ok ⟨serial, cbs, none⟩ := by
  rcases h with h | ⟨w, hw, hres⟩
  · simp [send_message, h]
  · simp [send_message, hw, hres]

/-- C7 witness: a send to editor_A with the VimRegistry property absent
(so the name resolves to no window id) is a no-op. -/
theorem C7_silent_noop_witness :
    send_message none (fun _ => true) 7 1 ([] : List (List Char × Nat))
      ("editor_A".toList) ("getcwd()".toList) true (some 0)
      = Except.ok ⟨1, [], none⟩ :=
  C7_silent_noop none (fun _ => true) 7 1 [] ("editor_A".toList)
    ("getcwd()".toList) true (some 0) (Or.inl rfl)

/- ===== Claim C8 ===== -/

/-- C8: is_alive returns false when no process was ever spawned; returns
false and clears the stored pid when the non-blocking waitpid probe
returns the pid itself (the child exited); returns false and keeps the pid
when the probe raises OSError; and returns true, keeping the pid, when the
probe reports anything else (the child is alive). -/
theorem C8_is_alive (probe : Nat → WaitResult) (p : Nat) (hp : p ≠ 0) :
    is_alive none probe = (none, false) ∧
    (∀ sts, probe p = WaitResult.ret p sts → is_alive (some p) probe = (none, false)) ∧
    (probe p = WaitResult.oserror → is_alive (some p) probe = (some p, false)) ∧
    (∀ rp sts, probe p = WaitResult.ret rp sts → rp ≠ p →
      is_alive (some p) probe = (some p, true)) := by
  refine ⟨rfl, ?_, ?_, ?_⟩
  · intro sts hpr
    simp [is_alive, hp, hpr]
  · intro hpr
    simp [is_alive, hp, hpr]
  · intro rp sts hpr hne
    simp [is_alive, hp, hpr, hne]

/-- C8 witness: the liveness clauses evaluated at pid 42 under a probe
that reports exit, a probe that raises, and a probe that reports the child
alive. -/
theorem C8_is_alive_witness :
    is_alive none (fun _ => WaitResult.ret 0 0) = (none, false) ∧
    is_alive (some 42) (fun _ => WaitResult.ret 42 0) = (none, false) ∧
    is_alive (some 42) (fun _ => WaitResult.oserror) = (some 42, false) ∧
    is_alive (some 42) (fun _ => WaitResult.ret 0 0) = (some 42, true) :=
  ⟨(C8_is_alive (fun _ => WaitResult.ret 0 0) 42 (by decide)).1,
   (C8_is_alive (fun _ => WaitResult.ret 42 0) 42 (by decide)).2.1 0 rfl,
   (C8_is_alive (fun _ => WaitResult.oserror) 42 (by decide)).2.2.1 rfl,
   (C8_is_alive (fun _ => WaitResult.ret 0 0) 42 (by decide)).2.2.2 0 0 rfl (by decide)⟩

/- ===== Claim C9 ===== -/

/-- C9: for an inbound non-reply frame, the dispatcher takes the payload
of the last -n field; when the payload contains a comma it fires do_evt
with the event named by the text before the first comma and the remaining
comma-separated tokens as arguments; when it contains no comma it fires no
event and logs exactly one diagnostic. -/
theorem C9_notify {κ : Type} (cbs : List (List Char × κ)) (data tv f : List Char)
    (ht : dictGet (parse_message data) ['t'] = some tv) (hr : tv ≠ ['r'])
    (hf : lastNField data = some f) :
    (countChar ',' (f.drop 3) ≠ 0 →
      cb_reply cbs data = Except.ok (cbs,
        [Effect.evt (splitFirst ',' (f.drop 3)).1
          (splitOnChar ',' (splitFirst ',' (f.drop 3)).2)])) ∧
    (countChar ',' (f.drop 3) = 0 →
      cb_reply cbs data = Except.ok (cbs, [Effect.log (f.drop 3)])) := by
  constructor
  · intro hcomma
    simp [cb_reply, ht, hr, hf, cb_reply_async, hcomma]
  · intro hcomma
    simp [cb_reply, ht, hr, hf, cb_reply_async, hcomma]

/-- C9 witness: the dispatch law evaluated on the notification payload
bufferchange,3,/tmp/foo.txt — which fires the event bufferchange with
arguments 3 and /tmp/foo.txt — and on the comma-less payload ready, which
only logs. -/
theorem C9_notify_witness :
    cb_reply ([] : List (List Char × Nat)) ("\x00n\x00-n bufferchange,3,/tmp/foo.txt\x00".toList)
      = Except.ok ([], [Effect.evt ("bufferchange".toList)
          [("3".toList), ("/tmp/foo.txt".toList)]]) ∧
    cb_reply ([] : List (List Char × Nat)) ("\x00n\x00-n ready\x00".toList)
      = Except.ok ([], [Effect.log ("ready".toList)]) :=
  ⟨(C9_notify [] ("\x00n\x00-n bufferchange,3,/tmp/foo.txt\x00".toList) ("n".toList)
      ("-n bufferchange,3,/tmp/foo.txt".toList) rfl (by decide) rfl).1 (by decide),
   (C9_notify [] ("\x00n\x00-n ready\x00".toList) ("n".toList)
      ("-n ready".toList) rfl (by decide) rfl).2 rfl⟩
